/-
Verification of the Baseline & Alert Engine of the Garmin Health Data
Dashboard.

The development shallowly embeds the decision logic of the repository:
  * the derived-metric formulas of scripts/baselines.py
    (calculate_derived_metrics),
  * the baseline construction of scripts/baselines.py (establish_baselines),
    including the linear-interpolation quantile used by pandas
    Series.quantile / Series.median,
  * the alert evaluation of "scripts - v1.0/dashboard BCP.py"
    (check_health_alerts) and its per-metric body,
  * the storage helpers of "scripts - v1.0/db_helper.py" (get_metric_data,
    insert_health_data with the UNIQUE(timestamp, metric_name) constraint of
    create_database.py) and the loader of "scripts - v1.0/dashboard.py"
    (load_data_from_db),
  * the custom-metric deletion of the dashboard's custom-metric builder.

Python floats are modelled as rationals, timestamps as integers, pandas
Series as lists, SQL tables as lists of rows, and Python dicts as
association lists.  NaN values (the dummy filler series of
load_data_from_db) are modelled as `Option` with `none` for NaN.
-/
import Mathlib

namespace GarminDash

/-! ## Derived metrics — scripts/baselines.py, calculate_derived_metrics -/

/-- `activity_score = (steps / 10000) * 0.4 + (active_minutes / 60) * 0.6`
(baselines.py line 49). -/
def activity_score (steps active_minutes : ℚ) : ℚ :=
  steps / 10000 * (4/10) + active_minutes / 60 * (6/10)

/-- `movement_ratio = active_minutes / (24 * 60) * 100` (baselines.py line 50). -/
def movement_ratio (active_minutes : ℚ) : ℚ :=
  active_minutes / (24 * 60) * 100

/-- `recovery_score = hrv_score * 0.4 + sleep_efficiency * 0.3 +
(100 - resting_hr) * 0.3` (baselines.py lines 51-52). -/
def recovery_score (hrv_score sleep_efficiency resting_hr : ℚ) : ℚ :=
  hrv_score * (4/10) + sleep_efficiency * (3/10) + (100 - resting_hr) * (3/10)

/-- `wellness_score = sleep_efficiency * 0.3 + hrv_score * 0.2 +
activity_score * 30 + (100 - stress_avg) * 0.2` (baselines.py lines 53-54).
Note the coefficient of `activity_score` in the source is `30`, not `0.3`. -/
def wellness_score (sleep_efficiency hrv_score as stress_avg : ℚ) : ℚ :=
  sleep_efficiency * (3/10) + hrv_score * (2/10) + as * 30 +
    (100 - stress_avg) * (2/10)

/-- The spec's version of the wellness formula:
`0.3 * SleepEfficiency + 0.2 * HRVScore + 0.3 * ActivityScore +
0.2 * (100 - StressLevel)`.  Stated from the spec's words, for comparison
with `wellness_score` above. -/
def wellnessScoreSpec (sleep_efficiency hrv_score as stress_avg : ℚ) : ℚ :=
  (3/10) * sleep_efficiency + (2/10) * hrv_score + (3/10) * as +
    (2/10) * (100 - stress_avg)

/-! ## Quantiles — pandas `Series.quantile(q)` with the default linear
interpolation, as used by establish_baselines.  pandas sorts the data and,
for `h = q * (n - 1)`, returns
`x[⌊h⌋] + (h - ⌊h⌋) * (x[⌊h⌋ + 1] - x[⌊h⌋])` over the sorted values.
`Series.median()` is `Series.quantile(0.5)`. -/

/-- The sorted copy of the data that pandas interpolates over. -/
def sortList (xs : List ℚ) : List ℚ :=
  List.insertionSort (· ≤ ·) xs

/-- Index of the lower interpolation neighbour, `⌊h⌋` as a natural number. -/
def interpIdx (h : ℚ) : ℕ :=
  (⌊h⌋).toNat

/-- Linear interpolation into a sorted list at fractional position `h`. -/
def qValue (ys : List ℚ) (h : ℚ) : ℚ :=
  ys.getD (interpIdx h) 0 +
    (h - (interpIdx h : ℚ)) *
      (ys.getD (interpIdx h + 1) 0 - ys.getD (interpIdx h) 0)

/-- pandas `Series.quantile(q)` (default linear interpolation). -/
def quantile (xs : List ℚ) (q : ℚ) : ℚ :=
  qValue (sortList xs) (q * ((xs.length - 1 : ℕ) : ℚ))

/-! ### Monotonicity of the interpolated quantile -/

theorem sortList_sorted (xs : List ℚ) : List.Sorted (· ≤ ·) (sortList xs) :=
  List.sorted_insertionSort _ xs

theorem sortList_length (xs : List ℚ) : (sortList xs).length = xs.length :=
  (List.perm_insertionSort _ xs).length_eq

theorem sorted_getD_mono {ys : List ℚ} (hs : List.Sorted (· ≤ ·) ys) {i j : ℕ}
    (hij : i ≤ j) (hj : j < ys.length) : ys.getD i 0 ≤ ys.getD j 0 := by
  have hi : i < ys.length := lt_of_le_of_lt hij hj
  rw [List.getD_eq_getElem _ _ hi, List.getD_eq_getElem _ _ hj]
  exact hs.rel_get_of_le hij

theorem interpIdx_le {h : ℚ} (h0 : 0 ≤ h) : (interpIdx h : ℚ) ≤ h := by
  unfold interpIdx
  have hfl : (0 : ℤ) ≤ ⌊h⌋ := Int.floor_nonneg.mpr h0
  have : ((⌊h⌋).toNat : ℚ) = ((⌊h⌋ : ℤ) : ℚ) := by
    exact_mod_cast congrArg (fun z : ℤ => (z : ℚ)) (Int.toNat_of_nonneg hfl)
  rw [this]
  exact Int.floor_le h

theorem lt_interpIdx_add_one {h : ℚ} (h0 : 0 ≤ h) : h < (interpIdx h : ℚ) + 1 := by
  unfold interpIdx
  have hfl : (0 : ℤ) ≤ ⌊h⌋ := Int.floor_nonneg.mpr h0
  have : ((⌊h⌋).toNat : ℚ) = ((⌊h⌋ : ℤ) : ℚ) := by
    exact_mod_cast congrArg (fun z : ℤ => (z : ℚ)) (Int.toNat_of_nonneg hfl)
  rw [this]
  exact Int.lt_floor_add_one h

theorem interpIdx_mono {h₁ h₂ : ℚ} (hle : h₁ ≤ h₂) :
    interpIdx h₁ ≤ interpIdx h₂ := by
  exact Int.toNat_le_toNat (Int.floor_le_floor hle)

/-- Cast of `interpIdx h` bounds `h` from below once `h` is below the last
index: then `interpIdx h ≤ bound`. -/
theorem interpIdx_le_of_le {h : ℚ} {n : ℕ} (h0 : 0 ≤ h) (hn : h ≤ (n : ℚ)) :
    interpIdx h ≤ n := by
  by_contra hgt
  push_neg at hgt
  have : (n : ℚ) + 1 ≤ (interpIdx h : ℚ) := by exact_mod_cast hgt
  have h1 : h < (interpIdx h : ℚ) + 1 := lt_interpIdx_add_one h0
  have h2 : (interpIdx h : ℚ) ≤ h := interpIdx_le h0
  linarith

/-- Monotonicity of the linear interpolation on a sorted list:
if `0 ≤ h₁ ≤ h₂ ≤ n - 1` then `qValue ys h₁ ≤ qValue ys h₂`. -/
theorem qValue_mono {ys : List ℚ} (hs : List.Sorted (· ≤ ·) ys)
    {h₁ h₂ : ℚ} (h0 : 0 ≤ h₁) (h12 : h₁ ≤ h₂)
    (htop : h₂ ≤ ((ys.length - 1 : ℕ) : ℚ)) :
    qValue ys h₁ ≤ qValue ys h₂ := by
  by_cases hys : ys = []
  · -- empty list: h₁ = h₂ = 0 and the value is 0 on both sides
    subst hys
    have hz : h₂ = 0 := le_antisymm (by simpa using htop) (le_trans h0 h12)
    have hz1 : h₁ = 0 := le_antisymm (hz ▸ h12) h0
    rw [hz, hz1]
  · have hlen : 1 ≤ ys.length := List.length_pos.mpr hys
    set n := ys.length with hn
    have h02 : 0 ≤ h₂ := le_trans h0 h12
    set i₁ := interpIdx h₁ with hi₁
    set i₂ := interpIdx h₂ with hi₂
    have hii : i₁ ≤ i₂ := interpIdx_mono h12
    have hi₂top : i₂ ≤ n - 1 := interpIdx_le_of_le h02 htop
    have hi₂lt : i₂ < n := lt_of_le_of_lt hi₂top (Nat.sub_lt hlen one_pos)
    have hi₁le : (i₁ : ℚ) ≤ h₁ := interpIdx_le h0
    have hi₂le : (i₂ : ℚ) ≤ h₂ := interpIdx_le h02
    have hf₁ : h₁ < (i₁ : ℚ) + 1 := lt_interpIdx_add_one h0
    rcases Nat.lt_or_ge i₁ i₂ with hlt | hge
    · -- distinct cells: chain through the sorted entries between them
      have hi₁succ : i₁ + 1 ≤ i₂ := hlt
      have hi₁succlt : i₁ + 1 < n := lt_of_le_of_lt hi₁succ hi₂lt
      have hstepA : qValue ys h₁ ≤ ys.getD (i₁ + 1) 0 := by
        unfold qValue
        rw [← hi₁]
        have hgap : ys.getD i₁ 0 ≤ ys.getD (i₁ + 1) 0 :=
          sorted_getD_mono hs (Nat.le_succ i₁) hi₁succlt
        nlinarith [hgap, hi₁le, hf₁]
      have hstepB : ys.getD (i₁ + 1) 0 ≤ ys.getD i₂ 0 :=
        sorted_getD_mono hs hi₁succ hi₂lt
      have hstepC : ys.getD i₂ 0 ≤ qValue ys h₂ := by
        unfold qValue
        rw [← hi₂]
        rcases Nat.lt_or_ge (i₂ + 1) n with hin | hout
        · have hgap : ys.getD i₂ 0 ≤ ys.getD (i₂ + 1) 0 :=
            sorted_getD_mono hs (Nat.le_succ i₂) hin
          nlinarith [hgap, hi₂le]
        · -- i₂ is the last index, so h₂ = i₂ and the fraction vanishes
          have hi₂eq : i₂ = n - 1 := le_antisymm hi₂top (by omega)
          have hh₂ : h₂ = (i₂ : ℚ) := by
            have : h₂ ≤ (i₂ : ℚ) := by rw [hi₂eq]; exact_mod_cast htop
            linarith
          rw [hh₂]
          simp
      exact le_trans hstepA (le_trans hstepB hstepC)
    · -- same cell
      have heq : i₁ = i₂ := le_antisymm hii hge
      unfold qValue
      rw [← hi₁, ← hi₂, ← heq]
      rcases Nat.lt_or_ge (i₁ + 1) n with hin | hout
      · have hgap : ys.getD i₁ 0 ≤ ys.getD (i₁ + 1) 0 :=
          sorted_getD_mono hs (Nat.le_succ i₁) hin
        nlinarith [hgap]
      · -- i₁ is the last index: both fractions are forced to zero
        have hi₁eq : i₁ = n - 1 := by omega
        have hh₂ : h₂ = (i₁ : ℚ) := by
          have h1 : h₂ ≤ (i₁ : ℚ) := by rw [hi₁eq]; exact_mod_cast htop
          have h2 : (i₁ : ℚ) ≤ h₂ := heq ▸ hi₂le
          linarith
        have hh₁ : h₁ = (i₁ : ℚ) := by
          have : (i₁ : ℚ) ≤ h₁ := hi₁le
          linarith [hh₂ ▸ h12]
        rw [hh₁, hh₂]

/-- Monotonicity of the pandas quantile in `q` over `[0, 1]`. -/
theorem quantile_mono (xs : List ℚ) {q₁ q₂ : ℚ} (h0 : 0 ≤ q₁) (h12 : q₁ ≤ q₂)
    (h1 : q₂ ≤ 1) : quantile xs q₁ ≤ quantile xs q₂ := by
  unfold quantile
  have hc : (0 : ℚ) ≤ ((xs.length - 1 : ℕ) : ℚ) := by positivity
  apply qValue_mono (sortList_sorted xs)
  · exact mul_nonneg h0 hc
  · exact mul_le_mul_of_nonneg_right h12 hc
  · rw [sortList_length]
    calc q₂ * ((xs.length - 1 : ℕ) : ℚ) ≤ 1 * ((xs.length - 1 : ℕ) : ℚ) :=
          mul_le_mul_of_nonneg_right h1 hc
    _ = ((xs.length - 1 : ℕ) : ℚ) := one_mul _

/-! ## Baseline bands — scripts/baselines.py, establish_baselines -/

/-- One `{target, good, poor}` baseline entry. -/
structure BandBaseline where
  target : ℚ
  good : ℚ
  poor : ℚ
deriving DecidableEq, Repr

/-- The health-metric baselines returned by establish_baselines. -/
structure HealthBaselines where
  steps : BandBaseline
  sleep_efficiency : BandBaseline
  hrv_score : BandBaseline
  stress_avg : BandBaseline
  wellness_score : BandBaseline
  recovery_score : BandBaseline
deriving DecidableEq, Repr

/-- The activity-metric baselines returned by establish_baselines. -/
structure ActivityBaselines where
  avg_pace_min_km : BandBaseline
  intensity_factor : BandBaseline
  pace_consistency : BandBaseline
  caloric_efficiency : BandBaseline
deriving DecidableEq, Repr

/-- `establish_baselines(health_df, activity_df)` (baselines.py lines 65-84),
over the data columns it actually reads.  `.median()` is the `0.5` quantile
and `.quantile(q)` the pandas linear-interpolation quantile embedded above. -/
def establish_baselines (steps hrv wellness recovery : List ℚ)
    (pace calEff : List ℚ) : HealthBaselines × ActivityBaselines :=
  (⟨⟨10000, quantile steps (75/100), quantile steps (25/100)⟩,
    ⟨85, 80, 70⟩,
    ⟨quantile hrv (75/100), quantile hrv (5/10), quantile hrv (25/100)⟩,
    ⟨25, 35, 50⟩,
    ⟨quantile wellness (9/10), quantile wellness (75/100),
      quantile wellness (25/100)⟩,
    ⟨quantile recovery (8/10), quantile recovery (5/10),
      quantile recovery (3/10)⟩⟩,
   ⟨⟨quantile pace (25/100), quantile pace (5/10), quantile pace (75/100)⟩,
    ⟨9/10, 8/10, 7/10⟩,
    ⟨9/10, 8/10, 7/10⟩,
    ⟨quantile calEff (75/100), quantile calEff (5/10),
      quantile calEff (25/100)⟩⟩)

/-- The baseline scheme claimed by the spec for a higher-is-better metric:
target = the domain default when one exists, else the 90th percentile;
good = 75th percentile; poor = 25th percentile.  Stated from the spec's
words, for comparison with `establish_baselines`. -/
def claimedBandHigher (dflt : Option ℚ) (xs : List ℚ) : BandBaseline :=
  ⟨dflt.getD (quantile xs (9/10)), quantile xs (75/100), quantile xs (25/100)⟩

/-- The baseline scheme claimed by the spec for a lower-is-better metric:
target = the domain default when one exists, else the 10th percentile;
good = 25th percentile; poor = 75th percentile. -/
def claimedBandLower (dflt : Option ℚ) (xs : List ℚ) : BandBaseline :=
  ⟨dflt.getD (quantile xs (1/10)), quantile xs (25/100), quantile xs (75/100)⟩

/-! ## Alert evaluation — "scripts - v1.0/dashboard BCP.py",
check_health_alerts (lines 519-563).

The Python loop draws each metric's current value from generated real-time
data; the embedding takes the current value as an input.  The message
strings carry the breached threshold for display; the embedding keeps the
message kind as a tag and the offending value in the `value` field (the
Python `round(value, 1)` display rounding is not modelled).  `sensitivity`
is accepted by the Python function but never read by it, and is therefore
an unused argument here as well. -/

inductive Severity where
  | low
  | medium
  | high
deriving DecidableEq, Repr

/-- Severity order used by the spec: `high > medium > low`. -/
def Severity.rank : Severity → ℕ
  | .low => 0
  | .medium => 1
  | .high => 2

inductive AlertMsg where
  | belowMin
  | aboveMax
  | targetAchieved
deriving DecidableEq, Repr

structure Alert where
  metric : String
  msg : AlertMsg
  severity : Severity
  value : ℚ
deriving DecidableEq, Repr

/-- A personal baseline `{min, max, target}` as stored in
`st.session_state.personal_baselines` / the personal_baselines table. -/
structure Baseline where
  min : ℚ
  max : ℚ
  target : ℚ
deriving DecidableEq, Repr

/-- The loop body of check_health_alerts for one metric: the threshold
checks (`if current < min ... elif current > max`) followed by the
independent target check with `tolerance = target * 0.05`. -/
def checkMetricAlerts (thresholds targets : Bool) (sensitivity : ℕ)
    (metric : String) (b : Baseline) (current : ℚ) : List Alert :=
  (if thresholds then
    (if current < b.min then [⟨metric, .belowMin, .high, current⟩]
     else if current > b.max then [⟨metric, .aboveMax, .high, current⟩]
     else [])
   else []) ++
  (if targets then
    (if |current - b.target| ≤ b.target * (5/100) then
      [⟨metric, .targetAchieved, .low, current⟩]
     else [])
   else [])

/-- check_health_alerts: iterate the per-metric body over the selected
primary metrics, appending the alerts in iteration order. -/
def check_health_alerts (thresholds targets : Bool) (sensitivity : ℕ)
    (metrics : List (String × Baseline × ℚ)) : List Alert :=
  metrics.flatMap (fun m => checkMetricAlerts thresholds targets sensitivity m.1 m.2.1 m.2.2)

/-- Number of alerts of a given message kind in an evaluator output. -/
def countMsg (l : List Alert) (m : AlertMsg) : ℕ :=
  (l.filter (fun a => a.msg = m)).length

/-! ## Storage — "scripts - v1.0/db_helper.py" and create_database.py.

The health_data table (create_database.py lines 25-35) carries
`UNIQUE(timestamp, metric_name)`; insert_health_data uses
`INSERT OR REPLACE`, whose SQLite semantics delete any row conflicting on
that unique key and then insert the new row.  Timestamps are modelled as
integers (hours), rows as a list. -/

structure HealthRow where
  timestamp : ℤ
  metric_name : String
  metric_value : ℚ
  device_id : String
deriving DecidableEq, Repr

/-- get_metric_data (db_helper.py lines 14-34): rows of the metric within
the last `hours`, ordered by timestamp; the empty frame becomes an empty
series. -/
def get_metric_data (db : List HealthRow) (metric : String) (cutoff : ℤ) :
    List (ℤ × ℚ) :=
  List.insertionSort (fun p q : ℤ × ℚ => p.1 ≤ q.1)
    ((db.filter (fun r => r.metric_name = metric ∧ cutoff ≤ r.timestamp)).map
      (fun r => (r.timestamp, r.metric_value)))

/-- load_data_from_db (dashboard.py lines 116-126): query the store; when
the series is empty, fall back to an hourly index of NaN values
(`[np.nan] * len(idx)`); NaN is modelled as `none`. -/
def load_data_from_db (db : List HealthRow) (metric : String) (hours : ℕ)
    (now : ℤ) : List (ℤ × Option ℚ) :=
  if (get_metric_data db metric (now - hours)).isEmpty then
    (List.range (hours + 1)).map
      (fun i : ℕ => (now - (hours : ℤ) + (i : ℤ), (none : Option ℚ)))
  else
    (get_metric_data db metric (now - hours)).map (fun p => (p.1, some p.2))

/-- insert_health_data (db_helper.py lines 60-74): `INSERT OR REPLACE`
keyed by the UNIQUE(timestamp, metric_name) constraint. -/
def insert_health_data (db : List HealthRow) (t : ℤ) (metric : String)
    (v : ℚ) (dev : String) : List HealthRow :=
  (db.filter (fun r => ¬(r.timestamp = t ∧ r.metric_name = metric))) ++
    [⟨t, metric, v, dev⟩]

/-- The rows a store holds for one (timestamp, metric_name) key. -/
def rowsForKey (db : List HealthRow) (t : ℤ) (metric : String) :
    List HealthRow :=
  db.filter (fun r => r.timestamp = t ∧ r.metric_name = metric)

/-! ## Custom metrics — the custom-metric builder of
"scripts - v1.0/dashboard BCP.py" (lines 565-658) and dashboard.py
(lines 242-252).  Definitions live in the `st.session_state.custom_metrics`
dict; deletion is `del st.session_state.custom_metrics[name]`, which in
Python raises KeyError when the name is absent.  The dict is modelled as an
association list with unique keys, deletion as `Except` with `error` for
KeyError. -/

structure MetricComponent where
  metric : String
  weight : ℚ
  op : String
deriving DecidableEq, Repr

structure CustomMetricDef where
  components : List MetricComponent
  formula : String
deriving DecidableEq, Repr

/-- `del st.session_state.custom_metrics[name]`: removes the entry when
present, raises KeyError otherwise. -/
def removeCustomMetric (store : List (String × CustomMetricDef))
    (name : String) : Except Unit (List (String × CustomMetricDef)) :=
  if store.any (fun p => p.1 = name) then
    .ok (store.filter (fun p => ¬(p.1 = name)))
  else
    .error ()

/-! ## Shared helper lemmas -/

theorem filter_of_filter_not {α : Type} (p : α → Prop) [DecidablePred p]
    (l : List α) :
    (l.filter (fun a => ¬ p a)).filter (fun a => p a) = [] := by
  induction l with
  | nil => rfl
  | cons a tl ih =>
    by_cases h : p a <;> simp [List.filter_cons, h, ih]

/-- Every alert the per-metric evaluator can emit is one of the three
message kinds with its fixed severity. -/
theorem mem_checkMetricAlerts {th tg : Bool} {s : ℕ} {m : String}
    {b : Baseline} {c : ℚ} {a : Alert}
    (ha : a ∈ checkMetricAlerts th tg s m b c) :
    (a.msg = .belowMin ∧ a.severity = .high) ∨
    (a.msg = .aboveMax ∧ a.severity = .high) ∨
    (a.msg = .targetAchieved ∧ a.severity = .low) := by
  unfold checkMetricAlerts at ha
  rcases List.mem_append.mp ha with h | h <;> split_ifs at h <;> simp_all

/-! ## Claims -/

/-- C1 (amended): the built-in wellness score equals
`0.3 * SleepEfficiency + 0.2 * HRVScore + 0.3 * (100 * ActivityScore) +
0.2 * (100 - StressLevel)`: the activity component enters with coefficient
30, i.e. weight 0.3 applied to the activity score rescaled to a 0-100
scale, not weight 0.3 on the raw activity score. -/
theorem wellness_score_weights (se hrv as stress : ℚ) :
    wellness_score se hrv as stress =
      (3/10) * se + (2/10) * hrv + (3/10) * (100 * as) +
        (2/10) * (100 - stress) ∧
    wellness_score se hrv as stress =
      wellnessScoreSpec se hrv (100 * as) stress := by
  constructor <;> (simp only [wellness_score, wellnessScoreSpec]; ring)

/-- C1 counterexample: at SleepEfficiency = 0, HRVScore = 0,
ActivityScore = 1, StressLevel = 100 the source formula yields 30 while
the claimed weighted sum yields 0.3. -/
theorem wellness_weight_counterexample :
    wellness_score 0 0 1 100 = 30 ∧ wellnessScoreSpec 0 0 1 100 = 3/10 ∧
      (30 : ℚ) ≠ 3/10 := by
  refine ⟨by norm_num [wellness_score], by norm_num [wellnessScoreSpec], by norm_num⟩

/-- C8: inserting a sample for a (timestamp, metric_name) key that is
already stored replaces the stored value: after the second insert the
store holds exactly one row for that key, carrying the later value and
device. -/
theorem insert_upsert_replaces (db : List HealthRow) (t : ℤ) (m : String)
    (v₁ v₂ : ℚ) (d₁ d₂ : String) :
    rowsForKey (insert_health_data (insert_health_data db t m v₁ d₁) t m v₂ d₂)
      t m = [⟨t, m, v₂, d₂⟩] := by
  unfold rowsForKey insert_health_data
  rw [List.filter_append]
  rw [filter_of_filter_not (fun r : HealthRow => r.timestamp = t ∧ r.metric_name = m)]
  simp

/-- C9 (amended): deleting a custom metric by name removes exactly that
definition when it is stored, but raises KeyError (an error, not a no-op)
when no definition with that name exists; the dashboard only offers the
delete action for names currently stored. -/
theorem remove_custom_metric_behaviour
    (store : List (String × CustomMetricDef)) (name : String) :
    ((¬ ∃ p ∈ store, p.1 = name) →
      removeCustomMetric store name = .error ()) ∧
    ((∃ p ∈ store, p.1 = name) →
      removeCustomMetric store name =
          .ok (store.filter (fun p => ¬(p.1 = name))) ∧
        (∀ q ∈ store.filter (fun p => ¬(p.1 = name)), q.1 ≠ name) ∧
        (∀ q ∈ store, q.1 ≠ name → q ∈ store.filter (fun p => ¬(p.1 = name)))) := by
  constructor
  · intro habs
    unfold removeCustomMetric
    rw [if_neg]
    simpa using habs
  · intro hex
    refine ⟨?_, ?_, ?_⟩
    · unfold removeCustomMetric
      rw [if_pos]
      simpa using hex
    · intro q hq
      have := List.of_mem_filter hq
      simpa using this
    · intro q hq hne
      exact List.mem_filter.mpr ⟨hq, by simpa using hne⟩

/-- C9 witness: instantiating the removal behaviour at a store holding one
definition named a. -/
theorem remove_custom_metric_witness :
    removeCustomMetric [("a", ⟨[], "f"⟩)] "a" =
        .ok (([("a", (⟨[], "f"⟩ : CustomMetricDef))]).filter
          (fun p => ¬(p.1 = "a"))) ∧
      ∀ q ∈ ([("a", (⟨[], "f"⟩ : CustomMetricDef))]).filter
          (fun p => ¬(p.1 = "a")), q.1 ≠ "a" := by
  have h := (remove_custom_metric_behaviour [("a", ⟨[], "f"⟩)] "a").2
    ⟨("a", ⟨[], "f"⟩), by simp, rfl⟩
  exact ⟨h.1, h.2.1⟩

/-- C9 counterexample: removing the name x from an empty store raises
KeyError instead of being a no-op. -/
theorem remove_missing_counterexample :
    removeCustomMetric [] "x" = .error () := rfl

/-- C2 (amended): the target-reached check uses the fixed tolerance
`baseline.target * 0.05` for every sensitivity in [1,10] — the sensitivity
dial is accepted but never read, so there is no linear interpolation from
0.10 down to 0.01 — and, with the kind enabled, exactly one low-severity
target-achieved alert is emitted iff
`|current - baseline.target| ≤ baseline.target * 0.05`. -/
theorem target_tolerance_fixed (s : ℕ) (hs1 : 1 ≤ s) (hs10 : s ≤ 10)
    (th : Bool) (m : String) (b : Baseline) (c : ℚ) :
    checkMetricAlerts th true s m b c = checkMetricAlerts th true 1 m b c ∧
    countMsg (checkMetricAlerts th true s m b c) .targetAchieved =
      (if |c - b.target| ≤ b.target * (5/100) then 1 else 0) ∧
    ∀ a ∈ checkMetricAlerts th true s m b c,
      a.msg = .targetAchieved → a.severity = .low := by
  refine ⟨rfl, ?_, ?_⟩
  · cases th <;>
      simp only [checkMetricAlerts, countMsg, List.filter_append,
        List.length_append, if_true, if_false, Bool.false_eq_true] <;>
      (try split_ifs) <;> simp_all
  · intro a ha hmsg
    rcases mem_checkMetricAlerts ha with ⟨h1, h2⟩ | ⟨h1, h2⟩ | ⟨h1, h2⟩ <;>
      simp_all

/-- C2 witness: the tolerance characterization applied at sensitivity 1
with target 100 and current value 100. -/
theorem target_tolerance_fixed_witness :
    countMsg (checkMetricAlerts true true 1 "steps" ⟨0, 200, 100⟩ 100)
        .targetAchieved =
      (if |(100 : ℚ) - 100| ≤ 100 * (5/100) then 1 else 0) :=
  (target_tolerance_fixed 1 (by norm_num) (by norm_num) true "steps"
    ⟨0, 200, 100⟩ 100).2.1

/-- C2 counterexample: at sensitivity 1 the claim's interpolated tolerance
is `100 * 0.10 = 10`, so for current value 91 against target 100 the claim
predicts one target-achieved alert, but the source (fixed 5 percent
tolerance) emits none. -/
theorem target_tolerance_counterexample :
    countMsg (checkMetricAlerts true true 1 "steps" ⟨0, 200, 100⟩ 91)
        .targetAchieved = 0 ∧
      |(91 : ℚ) - 100| ≤ 100 * (10/100) := by
  constructor
  · norm_num [checkMetricAlerts, countMsg]
  · norm_num

/-- C3 (amended): provided `baseline.min_threshold ≤ baseline.max_threshold`,
a current value below the minimum yields exactly one high-severity
below-minimum alert and no above-maximum alert, a current value above the
maximum yields exactly one high-severity above-maximum alert and no
below-minimum alert, and the two alerts are never emitted together (the
source checks them as if/elif, so with an inverted baseline,
min > max, a value below the minimum and above the maximum yields only the
below-minimum alert). -/
theorem threshold_breach_exclusive (tg : Bool) (s : ℕ) (m : String)
    (b : Baseline) (c : ℚ) (hmm : b.min ≤ b.max) :
    (c < b.min →
      countMsg (checkMetricAlerts true tg s m b c) .belowMin = 1 ∧
      countMsg (checkMetricAlerts true tg s m b c) .aboveMax = 0) ∧
    (c > b.max →
      countMsg (checkMetricAlerts true tg s m b c) .aboveMax = 1 ∧
      countMsg (checkMetricAlerts true tg s m b c) .belowMin = 0) ∧
    ¬(countMsg (checkMetricAlerts true tg s m b c) .belowMin ≠ 0 ∧
      countMsg (checkMetricAlerts true tg s m b c) .aboveMax ≠ 0) ∧
    ∀ a ∈ checkMetricAlerts true tg s m b c,
      (a.msg = .belowMin ∨ a.msg = .aboveMax) → a.severity = .high := by
  refine ⟨?_, ?_, ?_, ?_⟩
  · intro hlt
    cases tg <;>
      simp only [checkMetricAlerts, countMsg, List.filter_append,
        List.length_append, if_true, if_false, Bool.false_eq_true, if_pos hlt] <;>
      (try split_ifs) <;> simp_all
  · intro hgt
    have hnlt : ¬ c < b.min := by
      push_neg
      linarith
    cases tg <;>
      simp only [checkMetricAlerts, countMsg, List.filter_append,
        List.length_append, if_true, if_false, Bool.false_eq_true,
        if_neg hnlt, if_pos hgt] <;>
      (try split_ifs) <;> simp_all
  · cases tg <;>
      simp only [checkMetricAlerts, countMsg, List.filter_append,
        List.length_append, if_true, if_false, Bool.false_eq_true] <;>
      (try split_ifs) <;> simp_all
  · intro a ha hkind
    rcases mem_checkMetricAlerts ha with ⟨h1, h2⟩ | ⟨h1, h2⟩ | ⟨h1, h2⟩ <;>
      simp_all

/-- C3 witness: the below-minimum case at baseline min 50, max 80 and
current value 40. -/
theorem threshold_breach_exclusive_witness :
    countMsg (checkMetricAlerts true true 5 "heart_rate" ⟨50, 80, 1000⟩ 40)
        .belowMin = 1 ∧
    countMsg (checkMetricAlerts true true 5 "heart_rate" ⟨50, 80, 1000⟩ 40)
        .aboveMax = 0 :=
  (threshold_breach_exclusive true 5 "heart_rate" ⟨50, 80, 1000⟩ 40
    (by norm_num)).1 (by norm_num)

/-- C3 counterexample: with the inverted baseline min 10, max 0 and current
value 5, the value is above the maximum yet the evaluator emits only the
below-minimum alert and no above-maximum alert, contradicting the claim's
unconditional above-maximum clause. -/
theorem threshold_breach_counterexample :
    checkMetricAlerts true true 5 "hr" ⟨10, 0, 1000⟩ 5 =
        [⟨"hr", .belowMin, .high, 5⟩] ∧
      (5 : ℚ) > 0 ∧
      countMsg (checkMetricAlerts true true 5 "hr" ⟨10, 0, 1000⟩ 5)
        .aboveMax = 0 := by
  refine ⟨?_, by norm_num, ?_⟩ <;>
    (norm_num [checkMetricAlerts, countMsg]) <;> simp_all

/-- The spec's band ordering for a higher-is-better metric. -/
def higherOrdered (bb : BandBaseline) : Prop :=
  bb.poor ≤ bb.good ∧ bb.good ≤ bb.target

/-- The spec's band ordering for a lower-is-better metric. -/
def lowerOrdered (bb : BandBaseline) : Prop :=
  bb.target ≤ bb.good ∧ bb.good ≤ bb.poor

/-- C4 (amended): for every historical window, the direction-appropriate
band ordering `poor ≤ good ≤ target` (reversed for the lower-is-better
stress and pace metrics) holds for every metric except steps; for steps
only `poor ≤ good` is guaranteed, because its target is the fixed domain
default 10000 while its good band is the window's 75th percentile, which
can exceed 10000. -/
theorem baseline_band_ordering (steps hrv wellness recovery pace calEff : List ℚ) :
    higherOrdered
        ((establish_baselines steps hrv wellness recovery pace calEff).1.sleep_efficiency) ∧
    higherOrdered
        ((establish_baselines steps hrv wellness recovery pace calEff).1.hrv_score) ∧
    higherOrdered
        ((establish_baselines steps hrv wellness recovery pace calEff).1.wellness_score) ∧
    higherOrdered
        ((establish_baselines steps hrv wellness recovery pace calEff).1.recovery_score) ∧
    lowerOrdered
        ((establish_baselines steps hrv wellness recovery pace calEff).1.stress_avg) ∧
    lowerOrdered
        ((establish_baselines steps hrv wellness recovery pace calEff).2.avg_pace_min_km) ∧
    higherOrdered
        ((establish_baselines steps hrv wellness recovery pace calEff).2.intensity_factor) ∧
    higherOrdered
        ((establish_baselines steps hrv wellness recovery pace calEff).2.pace_consistency) ∧
    higherOrdered
        ((establish_baselines steps hrv wellness recovery pace calEff).2.caloric_efficiency) ∧
    (establish_baselines steps hrv wellness recovery pace calEff).1.steps.poor ≤
      (establish_baselines steps hrv wellness recovery pace calEff).1.steps.good := by
  refine ⟨⟨?_, ?_⟩, ⟨?_, ?_⟩, ⟨?_, ?_⟩, ⟨?_, ?_⟩, ⟨?_, ?_⟩, ⟨?_, ?_⟩,
    ⟨?_, ?_⟩, ⟨?_, ?_⟩, ⟨?_, ?_⟩, ?_⟩ <;>
    simp only [establish_baselines, higherOrdered, lowerOrdered] <;>
    first
      | (apply quantile_mono <;> norm_num)
      | norm_num

/-- C4 counterexample: a window of steps samples all equal to 12000 gives
good = 12000 above the fixed target 10000, so `good ≤ target` fails for
the steps baseline. -/
theorem steps_band_counterexample :
    (establish_baselines [12000, 12000] [] [] [] [] []).1.steps.target = 10000 ∧
    (establish_baselines [12000, 12000] [] [] [] [] []).1.steps.good = 12000 ∧
    ¬ ((establish_baselines [12000, 12000] [] [] [] [] []).1.steps.good ≤
        (establish_baselines [12000, 12000] [] [] [] [] []).1.steps.target) := by
  refine ⟨rfl, ?_, ?_⟩ <;>
    norm_num [establish_baselines, quantile, qValue, sortList, interpIdx,
      List.insertionSort, List.orderedInsert, List.getD_cons_zero,
      List.getD_cons_succ, List.length_cons]

/-- C5 (amended): only the steps and wellness-score baselines follow the
claimed domain-default / 90th / 75th / 25th percentile scheme; the other
metrics use different choices — hrv: 75th/median/25th, recovery:
80th/median/30th, average pace (lower-is-better): 25th/median/75th,
caloric efficiency: 75th/median/25th, and sleep efficiency, stress,
intensity factor and pace consistency are fixed constant bands. -/
theorem baseline_percentile_scheme (steps hrv wellness recovery pace calEff : List ℚ) :
    (establish_baselines steps hrv wellness recovery pace calEff).1.steps =
      claimedBandHigher (some 10000) steps ∧
    (establish_baselines steps hrv wellness recovery pace calEff).1.wellness_score =
      claimedBandHigher none wellness ∧
    (establish_baselines steps hrv wellness recovery pace calEff).1.sleep_efficiency =
      ⟨85, 80, 70⟩ ∧
    (establish_baselines steps hrv wellness recovery pace calEff).1.stress_avg =
      ⟨25, 35, 50⟩ ∧
    (establish_baselines steps hrv wellness recovery pace calEff).1.hrv_score =
      ⟨quantile hrv (75/100), quantile hrv (5/10), quantile hrv (25/100)⟩ ∧
    (establish_baselines steps hrv wellness recovery pace calEff).1.recovery_score =
      ⟨quantile recovery (8/10), quantile recovery (5/10), quantile recovery (3/10)⟩ ∧
    (establish_baselines steps hrv wellness recovery pace calEff).2.avg_pace_min_km =
      ⟨quantile pace (25/100), quantile pace (5/10), quantile pace (75/100)⟩ ∧
    (establish_baselines steps hrv wellness recovery pace calEff).2.intensity_factor =
      ⟨9/10, 8/10, 7/10⟩ ∧
    (establish_baselines steps hrv wellness recovery pace calEff).2.pace_consistency =
      ⟨9/10, 8/10, 7/10⟩ ∧
    (establish_baselines steps hrv wellness recovery pace calEff).2.caloric_efficiency =
      ⟨quantile calEff (75/100), quantile calEff (5/10), quantile calEff (25/100)⟩ :=
  ⟨rfl, rfl, rfl, rfl, rfl, rfl, rfl, rfl, rfl, rfl⟩

/-- C5 counterexample: for the hrv window [0, 10] the source sets the hrv
target to the 75th percentile, 7.5, while the claimed scheme (no domain
default, so the 90th percentile) gives 9. -/
theorem hrv_percentile_counterexample :
    (establish_baselines [] [0, 10] [] [] [] []).1.hrv_score.target = 15/2 ∧
    (claimedBandHigher none [0, 10]).target = 9 ∧
    ((15 : ℚ)/2) ≠ 9 := by
  refine ⟨?_, ?_, ?_⟩ <;>
    norm_num [establish_baselines, claimedBandHigher, quantile, qValue,
      sortList, interpIdx, List.insertionSort, List.orderedInsert,
      List.getD_cons_zero, List.getD_cons_succ, List.length_cons]

/-- C6 (amended): within one metric's evaluation the emitted alerts are in
non-increasing severity order (the high-severity threshold alert precedes
the low-severity target alert), and the full call concatenates the
per-metric outputs in input order; there is no global sort by severity
with metric-name tie-breaking. -/
theorem alert_output_order (th tg : Bool) (s : ℕ) :
    (∀ m b c, List.Pairwise
        (fun a₁ a₂ : Alert => a₂.severity.rank ≤ a₁.severity.rank)
        (checkMetricAlerts th tg s m b c)) ∧
    (∀ ms₁ ms₂, check_health_alerts th tg s (ms₁ ++ ms₂) =
        check_health_alerts th tg s ms₁ ++ check_health_alerts th tg s ms₂) := by
  constructor
  · intro m b c
    cases th <;> cases tg <;>
      simp only [checkMetricAlerts, if_true, if_false, Bool.false_eq_true] <;>
      (try split_ifs) <;> simp [Severity.rank]
  · intro ms₁ ms₂
    simp [check_health_alerts]

/-- C6 counterexample: a call where metric a reaches its target (low) and
metric b breaches its minimum (high) returns the low alert first, so the
output is not sorted by severity descending. -/
theorem alert_order_counterexample :
    check_health_alerts true true 5
        [("a", ⟨0, 100, 50⟩, 50), ("b", ⟨50, 80, 60⟩, 40)] =
      [⟨"a", .targetAchieved, .low, 50⟩, ⟨"b", .belowMin, .high, 40⟩] ∧
    Severity.rank .low < Severity.rank .high := by
  refine ⟨?_, by norm_num [Severity.rank]⟩
  norm_num [check_health_alerts, checkMetricAlerts]

/-- C7 (amended): a metric-data query matching no samples is returned by
get_metric_data as an empty series, but load_data_from_db then substitutes
an hourly filler series whose values are all NaN (it fabricates no numeric
placeholder values); a non-empty query result is passed through
unchanged. -/
theorem empty_series_handling (db : List HealthRow) (metric : String)
    (hours : ℕ) (now : ℤ) :
    (get_metric_data db metric (now - hours) = [] →
      (load_data_from_db db metric hours now).length = hours + 1 ∧
      ∀ p ∈ load_data_from_db db metric hours now, p.2 = none) ∧
    (get_metric_data db metric (now - hours) ≠ [] →
      load_data_from_db db metric hours now =
        (get_metric_data db metric (now - hours)).map
          (fun p => (p.1, some p.2))) := by
  constructor
  · intro h
    have hempty : (get_metric_data db metric (now - hours)).isEmpty = true := by
      simp [h]
    constructor
    · unfold load_data_from_db
      rw [if_pos hempty, List.length_map, List.length_range]
    · intro p hp
      unfold load_data_from_db at hp
      rw [if_pos hempty] at hp
      simp only [List.mem_map, List.mem_range] at hp
      obtain ⟨i, _, rfl⟩ := hp
      rfl
  · intro h
    have hne : ¬ (get_metric_data db metric (now - hours)).isEmpty = true := by
      simp [List.isEmpty_iff, h]
    unfold load_data_from_db
    rw [if_neg hne]

/-- C7 witness: the empty branch applied to an empty store over a 2-hour
window. -/
theorem empty_series_handling_witness :
    (load_data_from_db [] "hr" 2 0).length = 2 + 1 ∧
      ∀ p ∈ load_data_from_db [] "hr" 2 0, p.2 = none :=
  (empty_series_handling [] "hr" 2 0).1 rfl

/-- C7 counterexample: with an empty store the query result is empty, yet
the series load_data_from_db hands its caller has 25 entries — a
materialized filler series rather than an empty or absent result. -/
theorem empty_series_counterexample :
    get_metric_data [] "heart_rate" (-24) = [] ∧
      (load_data_from_db [] "heart_rate" 24 0).length = 25 ∧
      load_data_from_db [] "heart_rate" 24 0 ≠ [] := by
  have hempty : (get_metric_data [] "heart_rate" ((0 : ℤ) - (24 : ℕ))).isEmpty
      = true := rfl
  refine ⟨rfl, ?_, ?_⟩
  · unfold load_data_from_db
    rw [if_pos hempty, List.length_map, List.length_range]
  · unfold load_data_from_db
    rw [if_pos hempty]
    intro hnil
    have hlen := congrArg List.length hnil
    rw [List.length_map, List.length_range] at hlen
    simp at hlen

/-- C10: with both threshold-breach and target-reached kinds enabled, a
current value strictly below the minimum threshold that also lies within
the 5 percent target tolerance produces both a high-severity
below-minimum alert and a low-severity target-achieved alert in the same
evaluation: the target check runs independently of the threshold check. -/
theorem threshold_and_target_both_fire :
    checkMetricAlerts true true 5 "heart_rate" ⟨50, 80, 50⟩ 49 =
        [⟨"heart_rate", .belowMin, .high, 49⟩,
         ⟨"heart_rate", .targetAchieved, .low, 49⟩] ∧
      (49 : ℚ) < 50 ∧ |(49 : ℚ) - 50| ≤ 50 * (5/100) := by
  refine ⟨?_, by norm_num, by norm_num⟩
  norm_num [checkMetricAlerts]

end GarminDash
